import Mathlib

/-!
# Verification of the exchange-rate websocket server (src/exchange.py)

Shallow embedding of the program in Lean 4.

Modelling conventions:

* A calendar date is an integer day number (days since 1970-01-01); this makes
  the source's `today - datetime.timedelta(days=i)` a plain integer
  subtraction, exactly as `timedelta` arithmetic behaves on `datetime.date`.
  `formatDate` embeds `date.strftime("%d.%m.%Y")` via the standard
  days-to-civil (proleptic Gregorian) conversion used by `datetime`.
* Upstream JSON numbers (the `saleRate`/`purchaseRate` floats) are never
  computed with by the program, only carried; they are modelled by an opaque
  type parameter `V`.  Python's `None` / JSON `null` is `Option.none`.
* A successful upstream body is a JSON object whose optional `exchangeRate`
  member is an array of record objects (the shape the source reads from it);
  a record's optional members are `Option` fields, so `rate.get("currency")`
  is a plain field access returning `Option String`.
* The per-`date` behaviour of the network is an environment function
  `env : Int → FetchBehavior V`: either an HTTP response arrives (any status
  code) or the request raises a transport-level exception
  (`aiohttp` connection/DNS/timeout error).
* `asyncio.gather` returns the results in the order the coroutines were
  passed, independent of completion order, and propagates an exception as
  soon as one task raises; `gatherFetch` embeds exactly this contract:
  results in argument order, `none` (an unhandled fault) when any single
  fetch faults.
* The observable effect of handling one inbound websocket message is an
  `Outcome`: `ignored` (no dispatch), `fault` (an unhandled exception:
  nothing sent, nothing logged), or `sent response loggedLine`
  (one `websocket.send` and one audit-log append).  The list component of
  the handler's result records the dates for which a fetch was issued.
-/

set_option autoImplicit false

namespace ExchangeServer

variable {V : Type}

/-- A record of the upstream `exchangeRate` array: a JSON object with an
optional `currency` string and optional `saleRate`/`purchaseRate` numbers. -/
structure Record (V : Type) where
  currency : Option String
  saleRate : Option V
  purchaseRate : Option V
  deriving DecidableEq

/-- A successful upstream response body: a JSON object read only through its
optional `exchangeRate` member (`data.get("exchangeRate", [])`). -/
structure Payload (V : Type) where
  exchangeRate : Option (List (Record V))
  deriving DecidableEq

/-- An HTTP response from the upstream rate service: a status code and, for
use on the 200 path, the parsed JSON body. -/
structure UpstreamResponse (V : Type) where
  status : Nat
  payload : Payload V
  deriving DecidableEq

/-- The value built per retained currency:
`{"sale": rate.get("saleRate"), "purchase": rate.get("purchaseRate")}`;
`none` is Python `None` (JSON `null`), distinct from every number. -/
structure RateVal (V : Type) where
  sale : Option V
  purchase : Option V
  deriving DecidableEq

/-- The value sitting under a key of a per-day result dict: either the error
string of the non-200 branch or the currency→rates mapping of the 200
branch. -/
inductive Slot (V : Type) where
  | errMsg (s : String)
  | entries (es : List (String × RateVal V))
  deriving DecidableEq

/-- One element of the aggregated `results` list: a Python dict, i.e. an
insertion-ordered association list. -/
abbrev DailyResult (V : Type) := List (String × Slot V)

/-- Behaviour of the network for one fetched date. -/
inductive FetchBehavior (V : Type) where
  | ok (resp : UpstreamResponse V)
  | transportFault
  deriving DecidableEq

/-- What is sent back over the websocket: the plain validation-error string,
or the JSON serialization of the aggregated results. -/
inductive Response (V : Type) where
  | text (s : String)
  | json (results : List (DailyResult V))
  deriving DecidableEq

/-- The message part of the audit-log line: the validation-error string, or
`f"exchange {days}: {response}"` with the serialized results. -/
inductive LogMsg (V : Type) where
  | text (s : String)
  | cmd (days : Int) (results : List (DailyResult V))
  deriving DecidableEq

/-- Observable outcome of handling one inbound message. -/
inductive Outcome (V : Type) where
  | ignored
  | fault
  | sent (resp : Response V) (logged : LogMsg V)
  deriving DecidableEq

/-- The response sent for an outcome, if any. -/
def Outcome.response : Outcome V → Option (Response V)
  | .sent r _ => some r
  | _ => none

/-- The audit-log line appended for an outcome, if any. -/
def Outcome.logEntry : Outcome V → Option (LogMsg V)
  | .sent _ l => some l
  | _ => none

/-- Zero-pad to two digits, as `strftime` does for `%d` and `%m`. -/
def pad2 (n : Nat) : String :=
  if n < 10 then "0" ++ toString n else toString n

/-- Days-since-epoch to proleptic-Gregorian `(year, month, day)`; the
standard civil-from-days conversion underlying `datetime.date`. -/
def civilFromDays (z0 : Int) : Int × Nat × Nat :=
  let z : Int := z0 + 719468
  let era : Int := Int.fdiv z 146097
  let doe : Nat := (z - era * 146097).toNat
  let yoe : Nat := (doe - doe / 1460 + doe / 36524 - doe / 146096) / 365
  let y : Int := (yoe : Int) + era * 400
  let doy : Nat := doe - (365 * yoe + yoe / 4 - yoe / 100)
  let mp : Nat := (5 * doy + 2) / 153
  let d : Nat := doy - (153 * mp + 2) / 5 + 1
  let m : Nat := if mp < 10 then mp + 3 else mp - 9
  (if m ≤ 2 then y + 1 else y, m, d)

/-- `date.strftime("%d.%m.%Y")` for a day-number date. -/
def formatDate (z : Int) : String :=
  match civilFromDays z with
  | (y, m, d) => pad2 d ++ "." ++ pad2 m ++ "." ++ toString y

/-- Python dict insertion: an existing key keeps its position and gets the
new value, a new key is appended. -/
def dictInsert {α : Type} (m : List (String × α)) (k : String) (v : α) :
    List (String × α) :=
  match m with
  | [] => [(k, v)]
  | (k0, v0) :: rest =>
      if k0 = k then (k, v) :: rest else (k0, v0) :: dictInsert rest k v

/-- One step of the dict comprehension in `fetch_rates`: the guard
`if rate.get("currency") in currencies` runs first, so the key expression
`rate["currency"]` is only evaluated for records that do carry a currency in
the requested set. -/
def rateStep (cur : List String) (acc : List (String × RateVal V))
    (r : Record V) : List (String × RateVal V) :=
  match r.currency with
  | some c =>
      if c ∈ cur then dictInsert acc c ⟨r.saleRate, r.purchaseRate⟩ else acc
  | none => acc

/-- The dict comprehension of `fetch_rates`:
`{rate["currency"]: {"sale": ..., "purchase": ...} for rate in data.get("exchangeRate", []) if rate.get("currency") in currencies}`. -/
def buildRates (cur : List String) (records : List (Record V)) :
    List (String × RateVal V) :=
  records.foldl (rateStep cur) []

/-- `ExchangeRateFetcher.fetch_rates`, applied to the HTTP response the
session produced for the requested date's URL. -/
def fetch_rates (date : Int) (cur : List String) (resp : UpstreamResponse V) :
    DailyResult V :=
  if resp.status ≠ 200 then
    [("error", Slot.errMsg ("HTTP Error " ++ toString resp.status))]
  else
    [(formatDate date,
      Slot.entries (buildRates cur (resp.payload.exchangeRate.getD [])))]

/-- Python `str.startswith(pre)` on character lists. -/
def charsStartWith : List Char → List Char → Bool
  | _, [] => true
  | [], _ :: _ => false
  | c :: cs, d :: ds => c = d && charsStartWith cs ds

/-- Python `str.startswith(pre)`. -/
def startswith (s pre : String) : Bool :=
  charsStartWith s.data pre.data

/-- Helper of `pySplit`: walk the characters, `acc` holding the reversed
current token. -/
def pySplitAux : List Char → List Char → List String
  | [], acc => if acc = [] then [] else [String.mk acc.reverse]
  | c :: cs, acc =>
      if c.isWhitespace then
        if acc = [] then pySplitAux cs []
        else String.mk acc.reverse :: pySplitAux cs []
      else pySplitAux cs (c :: acc)

/-- Python `str.split()` with no argument: split on whitespace runs and drop
empty pieces. -/
def pySplit (s : String) : List String :=
  pySplitAux s.data []

/-- Accumulate decimal digits, as `int` does. -/
def digitsToNat (ds : List Char) : Nat :=
  ds.foldl (fun acc c => acc * 10 + (c.toNat - 48)) 0

/-- Python `int(s)` on a whitespace-free token: an optional sign followed by
at least one decimal digit parses, anything else raises `ValueError`
(modelled as `none`).  Exotic accepted forms (underscore separators,
non-ASCII digits) are outside the model. -/
def pyInt (s : String) : Option Int :=
  match s.data with
  | [] => none
  | c :: rest =>
      let signed : Int × List Char :=
        if c = '-' then (-1, rest)
        else if c = '+' then (1, rest)
        else (1, c :: rest)
      if signed.2 ≠ [] ∧ signed.2.all (fun d => d.isDigit) then
        some (signed.1 * (digitsToNat signed.2 : Int))
      else none

/-- `days = int(parts[1]) if len(parts) > 1 else 1`; `none` is the unhandled
`ValueError` of the unguarded `int` call. -/
def parseDays : List String → Option Int
  | _ :: second :: _ => pyInt second
  | _ => some 1

/-- The fixed default currency set of `handle_exchange`. -/
def defaultCurrencies : List String := ["USD", "EUR"]

/-- The fixed validation-error string of `handle_exchange`. -/
def daysError : String := "Ошибка: количество дней должно быть от 1 до 10."

/-- One task of the fan-out: run the fetch for one date against the network
environment; `none` is a transport-level exception escaping the task. -/
def fetchOne (env : Int → FetchBehavior V) (d : Int) :
    Option (DailyResult V) :=
  match env d with
  | .ok resp => some (fetch_rates d defaultCurrencies resp)
  | .transportFault => none

/-- `await asyncio.gather(*tasks)`: results in task order regardless of
completion order; any task's exception propagates and the whole join
faults. -/
def gatherFetch (env : Int → FetchBehavior V) :
    List Int → Option (List (DailyResult V))
  | [] => some []
  | d :: ds =>
      match fetchOne env d, gatherFetch env ds with
      | some r, some rs => some (r :: rs)
      | _, _ => none

/-- The dates of the fan-out:
`[today - datetime.timedelta(days=i) for i in range(days)]`. -/
def fanoutDates (today : Int) (days : Int) : List Int :=
  (List.range days.toNat).map (fun i : Nat => today - (i : Int))

/-- `WebSocketServer.handle_exchange`.  Returns the observable outcome
together with the list of dates for which a fetch was issued. -/
def handle_exchange (today : Int) (env : Int → FetchBehavior V)
    (message : String) : Outcome V × List Int :=
  match parseDays (pySplit message) with
  | none => (Outcome.fault, [])
  | some days =>
      if days < 1 ∨ days > 10 then
        (Outcome.sent (Response.text daysError) (LogMsg.text daysError), [])
      else
        match gatherFetch env (fanoutDates today days) with
        | none => (Outcome.fault, fanoutDates today days)
        | some rs =>
            (Outcome.sent (Response.json rs) (LogMsg.cmd days rs),
             fanoutDates today days)

/-- The body of `WebSocketServer.handle_client`'s loop, for one inbound
message. -/
def handle_client (today : Int) (env : Int → FetchBehavior V)
    (message : String) : Outcome V × List Int :=
  if startswith message "exchange" then handle_exchange today env message
  else (Outcome.ignored, [])

/-- The aggregate the all-responses-arrive run produces: the per-day fetch
result for `today - i` at index `i`. -/
def aggRs (today : Int) (days : Nat) (resp : Int → UpstreamResponse V) :
    List (DailyResult V) :=
  (List.range days).map
    (fun i : Nat => fetch_rates (today - (i : Int)) defaultCurrencies
      (resp (today - (i : Int))))

/-! ## Helper lemmas -/

theorem gatherFetch_allOk (resp : Int → UpstreamResponse V) :
    ∀ dates : List Int,
      gatherFetch (fun d => FetchBehavior.ok (resp d)) dates
        = some (dates.map (fun d => fetch_rates d defaultCurrencies (resp d)))
  | [] => rfl
  | d :: ds => by
      simp [gatherFetch, fetchOne, gatherFetch_allOk resp ds]

theorem gatherFetch_fault (env : Int → FetchBehavior V) (d : Int) :
    ∀ dates : List Int, d ∈ dates →
      env d = FetchBehavior.transportFault → gatherFetch env dates = none
  | [], h, _ => absurd h (List.not_mem_nil d)
  | e :: ds, h, hf => by
      rcases List.mem_cons.mp h with rfl | hmem
      · unfold gatherFetch fetchOne
        rw [hf]
      · have ht := gatherFetch_fault env d ds hmem hf
        unfold gatherFetch
        rw [ht]
        cases fetchOne env e <;> rfl

theorem handle_client_pos (today : Int) (env : Int → FetchBehavior V)
    (msg : String) (h : startswith msg "exchange" = true) :
    handle_client today env msg = handle_exchange today env msg := by
  simp [handle_client, h]

theorem handle_client_neg (today : Int) (env : Int → FetchBehavior V)
    (msg : String) (h : startswith msg "exchange" = false) :
    handle_client today env msg = (Outcome.ignored, []) := by
  simp [handle_client, h]

theorem aggRs_length (today : Int) (days : Nat)
    (resp : Int → UpstreamResponse V) :
    (aggRs today days resp).length = days := by
  unfold aggRs
  rw [List.length_map, List.length_range]

theorem aggRs_get (today : Int) (days : Nat)
    (resp : Int → UpstreamResponse V) (i : Nat)
    (h : i < (aggRs today days resp).length) :
    (aggRs today days resp).get ⟨i, h⟩
      = fetch_rates (today - (i : Int)) defaultCurrencies
          (resp (today - (i : Int))) := by
  unfold aggRs
  rw [List.get_eq_getElem, List.getElem_map, List.getElem_range]

theorem handle_exchange_allOk (today : Int)
    (resp : Int → UpstreamResponse V) (msg : String) (days : Int)
    (hp : parseDays (pySplit msg) = some days)
    (h1 : 1 ≤ days) (h2 : days ≤ 10) :
    handle_exchange today (fun d => FetchBehavior.ok (resp d)) msg
      = (Outcome.sent (Response.json (aggRs today days.toNat resp))
          (LogMsg.cmd days (aggRs today days.toNat resp)),
         fanoutDates today days) := by
  simp only [handle_exchange, hp]
  rw [if_neg (by omega : ¬(days < 1 ∨ days > 10))]
  rw [gatherFetch_allOk resp (fanoutDates today days)]
  simp only [fanoutDates, aggRs, List.map_map]
  rfl

theorem dictInsert_mem {α : Type} (k : String) (v : α) :
    ∀ (m : List (String × α)) (c : String) (w : α),
      (c, w) ∈ dictInsert m k v → (c, w) ∈ m ∨ (c = k ∧ w = v)
  | [], c, w, h => by
      rw [dictInsert] at h
      rcases List.mem_singleton.mp h with heq
      right
      exact ⟨congrArg Prod.fst heq, congrArg Prod.snd heq⟩
  | (k0, v0) :: rest, c, w, h => by
      rw [dictInsert] at h
      by_cases hk : k0 = k
      · rw [if_pos hk] at h
        rcases List.mem_cons.mp h with heq | hmem
        · right
          exact ⟨congrArg Prod.fst heq, congrArg Prod.snd heq⟩
        · exact Or.inl (List.mem_cons_of_mem _ hmem)
      · rw [if_neg hk] at h
        rcases List.mem_cons.mp h with heq | hmem
        · exact Or.inl (heq ▸ List.mem_cons_self _ _)
        · rcases dictInsert_mem k v rest c w hmem with h1 | h2
          · exact Or.inl (List.mem_cons_of_mem _ h1)
          · exact Or.inr h2

theorem foldlRate_mem (cur : List String) :
    ∀ (records : List (Record V)) (acc : List (String × RateVal V))
      (c : String) (w : RateVal V),
      (c, w) ∈ records.foldl (rateStep cur) acc →
      (c, w) ∈ acc
        ∨ (c ∈ cur ∧ ∃ r, r ∈ records ∧ r.currency = some c
            ∧ w = ⟨r.saleRate, r.purchaseRate⟩)
  | [], _, _, _, h => Or.inl h
  | r :: rest, acc, c, w, h => by
      rcases foldlRate_mem cur rest (rateStep cur acc r) c w h with hacc | hrec
      · rcases hc : r.currency with _ | c0
        · simp only [rateStep, hc] at hacc
          exact Or.inl hacc
        · simp only [rateStep, hc] at hacc
          by_cases hin : c0 ∈ cur
          · rw [if_pos hin] at hacc
            rcases dictInsert_mem c0 ⟨r.saleRate, r.purchaseRate⟩ acc c w hacc
              with h1 | h2
            · exact Or.inl h1
            · rcases h2 with ⟨rfl, rfl⟩
              exact Or.inr ⟨hin, r, List.mem_cons_self _ _, hc, rfl⟩
          · rw [if_neg hin] at hacc
            exact Or.inl hacc
      · rcases hrec with ⟨hcur, r0, hr0, hcu, hw⟩
        exact Or.inr ⟨hcur, r0, List.mem_cons_of_mem _ hr0, hcu, hw⟩

theorem buildRates_skip (cur : List String) (pre post : List (Record V))
    (r : Record V) (h : r.currency = none) :
    buildRates cur (pre ++ r :: post) = buildRates cur (pre ++ post) := by
  unfold buildRates
  rw [List.foldl_append, List.foldl_append, List.foldl_cons]
  have hstep : rateStep cur (List.foldl (rateStep cur) [] pre) r
      = List.foldl (rateStep cur) [] pre := by
    rw [rateStep, h]
  rw [hstep]

theorem str_data_append (s t : String) : (s ++ t).data = s.data ++ t.data := by
  cases s
  cases t
  rfl

theorem dot_mem_formatDate (z : Int) : '.' ∈ (formatDate z).data := by
  unfold formatDate
  rcases civilFromDays z with ⟨y, m, d⟩
  simp only [str_data_append]
  have hdot : ('.' : Char) ∈ ".".data := by decide
  exact List.mem_append_left _ (List.mem_append_right _ hdot)

theorem formatDate_ne_error (z : Int) : formatDate z ≠ "error" := by
  intro h
  have hmem := dot_mem_formatDate z
  rw [h] at hmem
  exact absurd hmem (by decide)

theorem parse_toString (days : Nat) (h1 : 1 ≤ days) (h2 : days ≤ 10) :
    parseDays (pySplit ("exchange " ++ toString days)) = some (days : Int)
    ∧ startswith ("exchange " ++ toString days) "exchange" = true := by
  interval_cases days <;> exact ⟨by decide, by decide⟩

/-- A fixed all-succeeding environment used to instantiate theorems on
concrete inputs: the upstream answers every date with HTTP 200 and an empty
body. -/
def okEnvU : Int → FetchBehavior Unit :=
  fun _ => FetchBehavior.ok ⟨200, ⟨some []⟩⟩

/-! ## Claims -/

/-- C1: for every `days` in `[1, 10]`, handling the command
`exchange <days>` (when every fetch completes with an HTTP response)
produces an aggregate response of exactly `days` per-day results, the
result at index `i` being the fetch result for the date `today - i`
(index 0 = today).  Completion order cannot influence the result: the
aggregate is a function of the per-date responses alone, joined in fan-out
index order. -/
theorem C1_ordered_aggregate (V : Type) (days : Nat)
    (h1 : 1 ≤ days) (h2 : days ≤ 10) (today : Int)
    (resp : Int → UpstreamResponse V) :
    ∃ rs : List (DailyResult V),
      (handle_client today (fun d => FetchBehavior.ok (resp d))
          ("exchange " ++ toString days)).1
        = Outcome.sent (Response.json rs) (LogMsg.cmd (days : Int) rs)
      ∧ rs.length = days
      ∧ ∀ (i : Nat) (h : i < rs.length),
          rs.get ⟨i, h⟩
            = fetch_rates (today - (i : Int)) defaultCurrencies
                (resp (today - (i : Int))) := by
  obtain ⟨hp, hstart⟩ := parse_toString days h1 h2
  refine ⟨aggRs today days resp, ?_, aggRs_length today days resp,
    fun i h => aggRs_get today days resp i h⟩
  rw [handle_client_pos _ _ _ hstart,
    handle_exchange_allOk today resp _ _ hp (by omega) (by omega)]
  simp

/-- C1 witness: the theorem applied at `days = 2`, `today = 0`, with a
fixed all-200 upstream. -/
theorem C1_ordered_aggregate_witness :
    (1 ≤ 2 ∧ 2 ≤ 10)
    ∧ ∃ rs : List (DailyResult Unit),
        (handle_client 0 (fun _ => FetchBehavior.ok ⟨200, ⟨some []⟩⟩)
            ("exchange " ++ toString 2)).1
          = Outcome.sent (Response.json rs) (LogMsg.cmd ((2 : Nat) : Int) rs)
        ∧ rs.length = 2
        ∧ ∀ (i : Nat) (h : i < rs.length),
            rs.get ⟨i, h⟩
              = fetch_rates (0 - (i : Int)) defaultCurrencies
                  ((fun _ => (⟨200, ⟨some []⟩⟩ : UpstreamResponse Unit))
                    (0 - (i : Int))) :=
  ⟨⟨by decide, by decide⟩,
    C1_ordered_aggregate Unit 2 (by decide) (by decide) 0
      (fun _ => ⟨200, ⟨some []⟩⟩)⟩

/-- C2 counterexample: dispatch is a prefix match, not first-token
equality, and a dispatched command can still die without any effect.  The
message `exchangerate` has first token `exchangerate ≠ exchange` yet is
processed and answered; the message `exchange abc` has first token
`exchange` yet produces neither a response nor a log entry (unhandled
`int` fault). -/
theorem C2_counterexample :
    ((pySplit "exchangerate").head? ≠ some "exchange"
      ∧ ((handle_client 0 okEnvU "exchangerate").1.response).isSome = true
      ∧ ((handle_client 0 okEnvU "exchangerate").1.logEntry).isSome = true)
    ∧ ((pySplit "exchange abc").head? = some "exchange"
      ∧ (handle_client 0 okEnvU "exchange abc").1.response = none
      ∧ (handle_client 0 okEnvU "exchange abc").1.logEntry = none) := by
  decide

/-- C2 amended: a message is dispatched to the exchange handler iff it
starts with the literal string `exchange` (prefix match, not token
equality); a message that does not start with `exchange` is ignored — no
response, no log entry, no fetch — and only messages starting with
`exchange` can ever produce a response or a log entry (a dispatched
message may still produce neither, e.g. on an unhandled parse fault). -/
theorem C2_prefix_dispatch (V : Type) (today : Int)
    (env : Int → FetchBehavior V) (msg : String) :
    (startswith msg "exchange" = false →
        handle_client today env msg = (Outcome.ignored, []))
    ∧ (startswith msg "exchange" = true →
        handle_client today env msg = handle_exchange today env msg)
    ∧ ((handle_client today env msg).1.response ≠ none
        ∨ (handle_client today env msg).1.logEntry ≠ none →
        startswith msg "exchange" = true) := by
  refine ⟨handle_client_neg today env msg, handle_client_pos today env msg, ?_⟩
  intro hor
  by_cases hs : startswith msg "exchange" = true
  · exact hs
  · rw [handle_client_neg today env msg (by simpa using hs)] at hor
    rcases hor with hr | hl
    · exact absurd rfl hr
    · exact absurd rfl hl

/-- C2 amended witness: the ignored branch at the concrete message
`hello`, and the dispatch branch at `exchange 3`. -/
theorem C2_prefix_dispatch_witness :
    (startswith "hello" "exchange" = false
      ∧ handle_client 0 okEnvU "hello" = (Outcome.ignored, []))
    ∧ (startswith "exchange 3" "exchange" = true
      ∧ handle_client 0 okEnvU "exchange 3"
          = handle_exchange 0 okEnvU "exchange 3") :=
  ⟨⟨by decide, (C2_prefix_dispatch Unit 0 okEnvU "hello").1 (by decide)⟩,
    ⟨by decide,
      (C2_prefix_dispatch Unit 0 okEnvU "exchange 3").2.1 (by decide)⟩⟩

/-- C3: whenever the parsed day count lies outside `[1, 10]`, the handler
sends exactly the fixed validation-error string, appends that same string
to the audit log, issues zero fetches, and does nothing else (early
return). -/
theorem C3_validation_error (V : Type) (today : Int)
    (env : Int → FetchBehavior V) (msg : String) (days : Int)
    (hstart : startswith msg "exchange" = true)
    (hp : parseDays (pySplit msg) = some days)
    (hout : days < 1 ∨ days > 10) :
    handle_client today env msg
      = (Outcome.sent (Response.text daysError) (LogMsg.text daysError),
         []) := by
  rw [handle_client_pos today env msg hstart]
  simp only [handle_exchange, hp]
  rw [if_pos hout]

/-- C3 witness: the theorem applied at the concrete message
`exchange 11`. -/
theorem C3_validation_error_witness :
    (startswith "exchange 11" "exchange" = true
      ∧ parseDays (pySplit "exchange 11") = some 11
      ∧ ((11 : Int) < 1 ∨ (11 : Int) > 10))
    ∧ handle_client 0 okEnvU "exchange 11"
        = (Outcome.sent (Response.text daysError) (LogMsg.text daysError),
           []) :=
  ⟨⟨by decide, by decide, by decide⟩,
    C3_validation_error Unit 0 okEnvU "exchange 11" 11 (by decide)
      (by decide) (by decide)⟩

/-- C4: a processed message with no second whitespace-delimited token gets
day count 1: exactly one fetch is issued, for today, and (when that fetch
returns an HTTP response) the response is the singleton aggregate of
today's fetch result. -/
theorem C4_default_one_day (V : Type) (today : Int)
    (env : Int → FetchBehavior V) (msg : String)
    (hstart : startswith msg "exchange" = true)
    (hone : (pySplit msg).length ≤ 1)
    (resp0 : UpstreamResponse V)
    (henv : env today = FetchBehavior.ok resp0) :
    handle_client today env msg
      = (Outcome.sent
          (Response.json [fetch_rates today defaultCurrencies resp0])
          (LogMsg.cmd 1 [fetch_rates today defaultCurrencies resp0]),
         [today]) := by
  rw [handle_client_pos today env msg hstart]
  have hp : parseDays (pySplit msg) = some 1 := by
    rcases hps : pySplit msg with _ | ⟨a, _ | ⟨b, rest⟩⟩
    · rfl
    · rfl
    · rw [hps] at hone
      simp at hone
  have hdates : fanoutDates today 1 = [today] := by
    have h01 : List.range 1 = [0] := rfl
    rw [fanoutDates]
    rw [show ((1 : Int).toNat) = 1 from rfl, h01]
    simp
  have hg : gatherFetch env (fanoutDates today 1)
      = some [fetch_rates today defaultCurrencies resp0] := by
    rw [hdates]
    simp [gatherFetch, fetchOne, henv]
  simp only [handle_exchange, hp]
  rw [if_neg (by omega : ¬((1 : Int) < 1 ∨ (1 : Int) > 10))]
  rw [hg, hdates]

/-- C4 witness: the theorem applied at the concrete message `exchange`
(no day-count token). -/
theorem C4_default_one_day_witness :
    (startswith "exchange" "exchange" = true
      ∧ (pySplit "exchange").length ≤ 1
      ∧ okEnvU 0 = FetchBehavior.ok ⟨200, ⟨some []⟩⟩)
    ∧ handle_client 0 okEnvU "exchange"
        = (Outcome.sent
            (Response.json
              [fetch_rates 0 defaultCurrencies
                (⟨200, ⟨some []⟩⟩ : UpstreamResponse Unit)])
            (LogMsg.cmd 1
              [fetch_rates 0 defaultCurrencies
                (⟨200, ⟨some []⟩⟩ : UpstreamResponse Unit)]),
           [0]) :=
  ⟨⟨by decide, by decide, by decide⟩,
    C4_default_one_day Unit 0 okEnvU "exchange" (by decide) (by decide)
      ⟨200, ⟨some []⟩⟩ (by decide)⟩

/-- C5: a non-200 upstream status never raises: `fetch_rates` returns the
mapping `{"error": "HTTP Error <status>"}` as an ordinary value, and in a
full command this per-day error value occupies its own slot of the
aggregate while every other day's slot is still exactly that day's own
fetch result (each slot depends only on its own date's response). -/
theorem C5_http_status_is_data (V : Type) (date : Int) (cur : List String)
    (resp0 : UpstreamResponse V) (hs : resp0.status ≠ 200) :
    fetch_rates date cur resp0
      = [("error", Slot.errMsg ("HTTP Error " ++ toString resp0.status))]
    ∧ ∀ (days : Nat), 1 ≤ days → days ≤ 10 →
        ∀ (today : Int) (resp : Int → UpstreamResponse V),
        ∃ rs : List (DailyResult V),
          (handle_client today (fun d => FetchBehavior.ok (resp d))
              ("exchange " ++ toString days)).1
            = Outcome.sent (Response.json rs) (LogMsg.cmd (days : Int) rs)
          ∧ rs.length = days
          ∧ ∀ (i : Nat) (h : i < rs.length),
              rs.get ⟨i, h⟩
                = fetch_rates (today - (i : Int)) defaultCurrencies
                    (resp (today - (i : Int)))
              ∧ ((resp (today - (i : Int))).status ≠ 200 →
                  rs.get ⟨i, h⟩
                    = [("error", Slot.errMsg ("HTTP Error "
                        ++ toString (resp (today - (i : Int))).status))]) := by
  constructor
  · unfold fetch_rates
    rw [if_pos hs]
  · intro days hd1 hd2 today resp
    obtain ⟨hp, hstart⟩ := parse_toString days hd1 hd2
    refine ⟨aggRs today days resp, ?_, aggRs_length today days resp, ?_⟩
    · rw [handle_client_pos _ _ _ hstart,
        handle_exchange_allOk today resp _ _ hp (by omega) (by omega)]
      simp
    · intro i h
      refine ⟨aggRs_get today days resp i h, fun hne => ?_⟩
      rw [aggRs_get today days resp i h]
      unfold fetch_rates
      rw [if_pos hne]

/-- C5 witness: the theorem applied at a concrete 404 response. -/
theorem C5_http_status_is_data_witness :
    ((404 : Nat) ≠ 200)
    ∧ fetch_rates 0 defaultCurrencies
        (⟨404, ⟨some []⟩⟩ : UpstreamResponse Unit)
        = [("error", Slot.errMsg ("HTTP Error " ++ toString (404 : Nat)))] :=
  ⟨by decide,
    (C5_http_status_is_data Unit 0 defaultCurrencies ⟨404, ⟨some []⟩⟩
      (by decide)).1⟩

/-- C6: on a successful (status 200) response the per-day result wraps,
under the formatted-date key, exactly the mapping built from the payload:
every entry of that mapping is a currency that is both in the requested
set and carried by some record of the payload's `exchangeRate` array, and
its sale/purchase components are that record's optional `saleRate` and
`purchaseRate` fields verbatim — an absent field stays the null marker
`none`, never a zero. -/
theorem C6_currency_filter (V : Type) (date : Int) (cur : List String)
    (resp0 : UpstreamResponse V) (hs : resp0.status = 200) :
    fetch_rates date cur resp0
      = [(formatDate date,
          Slot.entries
            (buildRates cur (resp0.payload.exchangeRate.getD [])))]
    ∧ ∀ (c : String) (w : RateVal V),
        (c, w) ∈ buildRates cur (resp0.payload.exchangeRate.getD []) →
        c ∈ cur
        ∧ ∃ r, r ∈ resp0.payload.exchangeRate.getD []
            ∧ r.currency = some c
            ∧ w.sale = r.saleRate ∧ w.purchase = r.purchaseRate := by
  constructor
  · unfold fetch_rates
    rw [if_neg (fun hne => hne hs)]
  · intro c w hmem
    rcases foldlRate_mem cur _ [] c w hmem with h0 | hj
    · exact absurd h0 (List.not_mem_nil _)
    · rcases hj with ⟨hcur, r, hr, hc, hw⟩
      subst hw
      exact ⟨hcur, r, hr, hc, rfl, rfl⟩

/-- C6 witness: the theorem applied at a concrete 200 response carrying a
USD record (retained) and a GBP record (filtered out). -/
theorem C6_currency_filter_witness :
    ((200 : Nat) = 200)
    ∧ fetch_rates 0 defaultCurrencies
        (⟨200, ⟨some [⟨some "USD", some (), none⟩,
          ⟨some "GBP", some (), some ()⟩]⟩⟩ : UpstreamResponse Unit)
        = [(formatDate 0,
            Slot.entries (buildRates defaultCurrencies
              ((⟨some [⟨some "USD", some (), none⟩,
                  ⟨some "GBP", some (), some ()⟩]⟩ :
                Payload Unit).exchangeRate.getD [])))] :=
  ⟨rfl,
    (C6_currency_filter Unit 0 defaultCurrencies
      ⟨200, ⟨some [⟨some "USD", some (), none⟩,
        ⟨some "GBP", some (), some ()⟩]⟩⟩ rfl).1⟩

/-- C7: the day-count parse is unguarded: for the concrete processed
message `exchange abc` (second token not an integer literal) the handler
raises an unhandled parse fault — no response is sent, no audit line is
written, no fetch is issued. -/
theorem C7_unguarded_parse_fault :
    startswith "exchange abc" "exchange" = true
    ∧ (pySplit "exchange abc")[1]? = some "abc"
    ∧ pyInt "abc" = none
    ∧ handle_client 0 okEnvU "exchange abc" = (Outcome.fault, [])
    ∧ (handle_client 0 okEnvU "exchange abc").1.response = none
    ∧ (handle_client 0 okEnvU "exchange abc").1.logEntry = none := by
  decide

/-- C8: if any single per-day fetch raises a transport-level fault, the
whole command aborts: the outcome is the propagated exception, with no
response sent and no audit entry written. -/
theorem C8_transport_fault_aborts (V : Type) (today : Int)
    (env : Int → FetchBehavior V) (msg : String) (days : Int)
    (hstart : startswith msg "exchange" = true)
    (hp : parseDays (pySplit msg) = some days)
    (h1 : 1 ≤ days) (h2 : days ≤ 10)
    (i : Nat) (hi : i < days.toNat)
    (hfault : env (today - (i : Int)) = FetchBehavior.transportFault) :
    (handle_client today env msg).1 = Outcome.fault
    ∧ (handle_client today env msg).1.response = none
    ∧ (handle_client today env msg).1.logEntry = none := by
  have hmem : (today - (i : Int)) ∈ fanoutDates today days := by
    unfold fanoutDates
    exact List.mem_map.mpr ⟨i, List.mem_range.mpr hi, rfl⟩
  have hg := gatherFetch_fault env (today - (i : Int))
    (fanoutDates today days) hmem hfault
  rw [handle_client_pos today env msg hstart]
  simp only [handle_exchange, hp]
  rw [if_neg (by omega : ¬(days < 1 ∨ days > 10))]
  rw [hg]
  exact ⟨rfl, rfl, rfl⟩

/-- An always-faulting environment (every upstream request dies at the
transport layer), used to instantiate theorems on concrete inputs. -/
def faultEnvU : Int → FetchBehavior Unit :=
  fun _ => FetchBehavior.transportFault

/-- C8 witness: the theorem applied at the concrete command `exchange 2`
against an environment whose fetches all fault. -/
theorem C8_transport_fault_aborts_witness :
    (startswith "exchange 2" "exchange" = true
      ∧ parseDays (pySplit "exchange 2") = some 2
      ∧ (1 : Int) ≤ 2 ∧ (2 : Int) ≤ 10
      ∧ 0 < (2 : Int).toNat
      ∧ faultEnvU (0 - ((0 : Nat) : Int)) = FetchBehavior.transportFault)
    ∧ (handle_client 0 faultEnvU "exchange 2").1 = Outcome.fault :=
  ⟨⟨by decide, by decide, by decide, by decide, by decide, by decide⟩,
    (C8_transport_fault_aborts Unit 0 faultEnvU "exchange 2" 2 (by decide)
      (by decide) (by decide) (by decide) 0 (by decide) (by decide)).1⟩

/-- C9: a non-200 per-day result is the mapping whose only key is the
string `error`; in particular it does not carry the formatted-date key
that success results are wrapped under (the date formatter always emits a
dotted `dd.mm.yyyy` string, which can never equal `error`). -/
theorem C9_error_slot_without_date_key (V : Type) (date : Int)
    (cur : List String) (resp0 : UpstreamResponse V)
    (hs : resp0.status ≠ 200) :
    (fetch_rates date cur resp0).map Prod.fst = ["error"]
    ∧ formatDate date ∉ (fetch_rates date cur resp0).map Prod.fst := by
  have herr : fetch_rates date cur resp0
      = [("error", Slot.errMsg ("HTTP Error " ++ toString resp0.status))] := by
    unfold fetch_rates
    rw [if_pos hs]
  rw [herr]
  refine ⟨rfl, ?_⟩
  simp only [List.map_cons, List.map_nil, List.mem_singleton]
  exact formatDate_ne_error date

/-- C9 witness: the theorem applied at a concrete 404 response on the
epoch date. -/
theorem C9_error_slot_without_date_key_witness :
    ((404 : Nat) ≠ 200)
    ∧ (fetch_rates 0 defaultCurrencies
          (⟨404, ⟨some []⟩⟩ : UpstreamResponse Unit)).map Prod.fst
        = ["error"]
    ∧ formatDate 0 ∉ (fetch_rates 0 defaultCurrencies
          (⟨404, ⟨some []⟩⟩ : UpstreamResponse Unit)).map Prod.fst :=
  ⟨by decide,
    C9_error_slot_without_date_key Unit 0 defaultCurrencies
      ⟨404, ⟨some []⟩⟩ (by decide)⟩

/-- C10: `fetch_rates` is total over malformed success payloads: a record
of the `exchangeRate` array lacking a `currency` field is silently
skipped (the guard `rate.get("currency") in currencies` fails before the
key lookup `rate["currency"]` is ever evaluated), and a payload lacking
the `exchangeRate` key altogether yields the empty mapping under the date
key rather than an error. -/
theorem C10_total_on_malformed_payload (V : Type) (cur : List String) :
    (∀ (pre post : List (Record V)) (r : Record V), r.currency = none →
        buildRates cur (pre ++ r :: post) = buildRates cur (pre ++ post))
    ∧ ∀ (date : Int) (resp0 : UpstreamResponse V), resp0.status = 200 →
        resp0.payload.exchangeRate = none →
        fetch_rates date cur resp0
          = [(formatDate date, Slot.entries [])] := by
  constructor
  · intro pre post r h
    exact buildRates_skip cur pre post r h
  · intro date resp0 hs hx
    unfold fetch_rates
    rw [if_neg (fun hne => hne hs), hx]
    rfl

/-- C10 witness: the theorem applied to a concrete currency-less record
and to a concrete 200 response without an `exchangeRate` key. -/
theorem C10_total_on_malformed_payload_witness :
    ((⟨none, none, none⟩ : Record Unit).currency = none
      ∧ buildRates defaultCurrencies
          (([] : List (Record Unit)) ++ (⟨none, none, none⟩ : Record Unit)
            :: [])
        = buildRates defaultCurrencies (([] : List (Record Unit)) ++ []))
    ∧ ((⟨200, ⟨none⟩⟩ : UpstreamResponse Unit).status = 200
      ∧ (⟨200, ⟨none⟩⟩ : UpstreamResponse Unit).payload.exchangeRate = none
      ∧ fetch_rates 0 defaultCurrencies
          (⟨200, ⟨none⟩⟩ : UpstreamResponse Unit)
          = [(formatDate 0, Slot.entries [])]) :=
  ⟨⟨rfl,
    (C10_total_on_malformed_payload Unit defaultCurrencies).1 [] []
      ⟨none, none, none⟩ rfl⟩,
   ⟨rfl, rfl,
    (C10_total_on_malformed_payload Unit defaultCurrencies).2 0
      ⟨200, ⟨none⟩⟩ rfl rfl⟩⟩

end ExchangeServer
